import Mathlib

/-!
Shallow embedding of `website/addons/github/static/hgrid-github.js`:
the static `extensions` table and the `TaskNameFormatter` row formatter.
Markup apostrophes are written with the `\x27` escape; the string values
are identical to the source literals.
-/

namespace HgridGithub

set_option maxRecDepth 100000

/-- The static list of known file extensions (lines 1-7 of the source). -/
def extensions : List String := ["3gp", "7z", "ace", "ai", "aif", "aiff", "amr", "asf", "asx", "bat", "bin", "bmp", "bup",
    "cab", "cbr", "cda", "cdl", "cdr", "chm", "dat", "divx", "dll", "dmg", "doc", "docx", "dss", "dvf", "dwg",
    "eml", "eps", "exe", "fla", "flv", "gif", "gz", "hqx", "htm", "html", "ifo", "indd", "iso", "jar",
    "jpeg", "jpg", "lnk", "log", "m4a", "m4b", "m4p", "m4v", "mcd", "mdb", "mid", "mov", "mp2", "mp3", "mp4",
    "mpeg", "mpg", "msi", "mswmm", "ogg", "pdf", "png", "pps", "ps", "psd", "pst", "ptb", "pub", "qbb",
    "qbw", "qxd", "ram", "rar", "rm", "rmvb", "rtf", "sea", "ses", "sit", "sitx", "ss", "swf", "tgz", "thm",
    "tif", "tmp", "torrent", "ttf", "txt", "vcd", "vob", "wav", "wma", "wmv", "wps", "xls", "xpi", "zip"]

/-- One grid row record (`dataContext`).  Field `collapsed` embeds the
`_collapsed` property read on line 13; `can_view`, `url` and `ext` are
`Option` because the corresponding properties may be absent (JS
`undefined`); `type` likewise. -/
structure Node where
  type : Option String
  indent : Nat
  collapsed : Bool
  can_view : Option String
  uid : Nat
  url : Option String
  ext : Option String

/-- Global single-character replacement: the meaning of the JS
`s.replace(/c/g, rep)` for a one-character pattern `c`. -/
def replaceChar (c : Char) (rep : List Char) : List Char → List Char
  | [] => []
  | a :: rest => (if a = c then rep else [a]) ++ replaceChar c rep rest

/-- Line 10: `value.replace(/&/g,"&amp;").replace(/</g,"&lt;").replace(/>/g,"&gt;")`,
ampersand first, then less-than, then greater-than. -/
def escapeJS (s : String) : String :=
  ⟨replaceChar '>' "&gt;".data (replaceChar '<' "&lt;".data (replaceChar '&' "&amp;".data s.data))⟩

/-- Line 11: the indentation spacer markup. -/
def spacerStr (indent : Nat) : String :=
  "<span style=\x27display:inline-block;height:1px;width:" ++ toString (18 * indent) ++ "px\x27></span>"

/-- JS stringification of `dataContext[\x27ext\x27]`: an absent property
interpolates as the text `undefined`. -/
def extRepr : Option String → String
  | some e => e
  | none => "undefined"

/-- Line 34: `extensions.indexOf(dataContext[\x27ext\x27]) != -1`; `indexOf`
uses exact string equality, and `undefined` is never a member. -/
def extMember : Option String → Bool
  | some e => extensions.contains e
  | none => false

/-- Lines 33-36: the icon path for a file row: the extension-parameterized
asset when the extension is known, else the fixed generic icon. -/
def fileImageUrl (ext : Option String) : String :=
  if extMember ext then
    "/static/img/hgrid/fatcowicons/file_extension_" ++ extRepr ext ++ ".png"
  else
    "/static/img/hgrid/file.png"

/-- JS truthiness of `dataContext[\x27url\x27]` on line 30: absent or empty
string is falsy. -/
def urlTruthy : Option String → Bool
  | some u => u != ""
  | none => false

/-- Lines 9-39: the row formatter.  `value` is the `name` field of the row
(the grid registers the formatter on the `name` column); `d` is the
`dataContext` record.  The branch structure, comparisons and every markup
literal follow the source line by line. -/
def TaskNameFormatter (value : String) (d : Node) : String :=
  let v := escapeJS value
  let spacer := spacerStr d.indent
  if d.type = some "folder" then
    if d.collapsed then
      if d.can_view ≠ some "false" then
        spacer ++ " <span class=\x27toggle expand nav-filter-item\x27 data-hgrid-nav=" ++ toString d.uid ++ "></span></span><span class=\x27folder folder-open\x27></span>&nbsp;" ++ v ++ "</a>"
      else
        spacer ++ " <span class=\x27toggle nav-filter-item\x27 data-hgrid-nav=" ++ toString d.uid ++ "></span></span><span class=\x27folder folder-delete\x27></span>&nbsp;" ++ "Private Component" ++ "</a>"
    else
      if d.can_view ≠ some "false" then
        spacer ++ " <span class=\x27toggle collapse nav-filter-item\x27 data-hgrid-nav=" ++ toString d.uid ++ "></span><span class=\x27folder folder-close\x27></span>&nbsp;" ++ v ++ "</a>"
      else
        spacer ++ " <span class=\x27toggle nav-filter-item\x27 data-hgrid-nav=" ++ toString d.uid ++ "></span><span class=\x27folder folder-delete\x27></span>&nbsp;" ++ "Private Component" ++ "</a>"
  else
    let link := if urlTruthy d.url then "<a href=" ++ d.url.getD "" ++ ">" ++ v ++ "</a>" else v
    spacer ++ " <span class=\x27toggle\x27></span><span class=\x27file\x27 style=\x27background: url(" ++ fileImageUrl d.ext ++ ") no-repeat left top;\x27></span>&nbsp;" ++ link

/-- Substring containment of `needle` in `hay`, stated on the character
lists. -/
def strContains (hay needle : String) : Prop := needle.data <:+: hay.data

instance (hay needle : String) : Decidable (strContains hay needle) :=
  List.decidableInfix needle.data hay.data

/-- The per-character reading of the escaping pipeline: what one input
character contributes to the escaped output. -/
def escChar (c : Char) : List Char :=
  if c = '&' then "&amp;".data
  else if c = '<' then "&lt;".data
  else if c = '>' then "&gt;".data
  else [c]

theorem sapp_assoc (a b c : String) : a ++ b ++ c = a ++ (b ++ c) := by
  apply String.ext
  simp [String.data_append, List.append_assoc]

theorem replaceChar_append (c : Char) (rep : List Char) (l₁ l₂ : List Char) :
    replaceChar c rep (l₁ ++ l₂) = replaceChar c rep l₁ ++ replaceChar c rep l₂ := by
  induction l₁ with
  | nil => rfl
  | cons a t ih => simp [replaceChar, ih, List.append_assoc]

/-- The three sequential global replacements act independently on each input
character: escaping is the concatenation of `escChar` over the input.  This
holds because the ampersand pass runs first, so the `&` introduced by
`&amp;`, `&lt;`, `&gt;` is never rewritten again. -/
theorem escapeJS_data (s : String) :
    (escapeJS s).data = s.data.flatMap escChar := by
  show replaceChar '>' "&gt;".data (replaceChar '<' "&lt;".data
      (replaceChar '&' "&amp;".data s.data)) = s.data.flatMap escChar
  induction s.data with
  | nil => rfl
  | cons a t ih =>
    have h1 : a :: t = [a] ++ t := rfl
    rw [h1, replaceChar_append, replaceChar_append, replaceChar_append,
      List.flatMap_append, ih]
    congr 1
    by_cases hamp : a = '&'
    · subst hamp; rfl
    · by_cases hlt : a = '<'
      · subst hlt; rfl
      · by_cases hgt : a = '>'
        · subst hgt; rfl
        · simp [replaceChar, escChar, hamp, hlt, hgt]

theorem escChar_no_angle (a c : Char) (h : c ∈ escChar a) : c ≠ '<' ∧ c ≠ '>' := by
  unfold escChar at h
  split_ifs at h with h1 h2 h3
  · subst h1; fin_cases h <;> decide
  · subst h2; fin_cases h <;> decide
  · subst h3; fin_cases h <;> decide
  · rcases List.mem_singleton.mp h with rfl
    exact ⟨h2, h3⟩

/-- Escaped text contains no angle-bracket characters at all. -/
theorem escapeJS_no_angle (s : String) (c : Char) (h : c ∈ (escapeJS s).data) :
    c ≠ '<' ∧ c ≠ '>' := by
  rw [escapeJS_data] at h
  rcases List.mem_flatMap.mp h with ⟨a, _, hca⟩
  exact escChar_no_angle a c hca

theorem strContains_self (n : String) : strContains n n :=
  ⟨[], [], by simp⟩

theorem strContains_appL (a b n : String) (h : strContains a n) :
    strContains (a ++ b) n := by
  obtain ⟨s, t, hst⟩ := h
  exact ⟨s, t ++ b.data, by simp [String.data_append, ← hst, List.append_assoc]⟩

theorem strContains_appR (a b n : String) (h : strContains b n) :
    strContains (a ++ b) n := by
  obtain ⟨s, t, hst⟩ := h
  exact ⟨a.data ++ s, t, by simp [String.data_append, ← hst, List.append_assoc]⟩

theorem strContains_sandwich (hay p n s : String) (h : hay = p ++ (n ++ s)) :
    strContains hay n := by
  subst h
  exact ⟨p.data, s.data, by simp [String.data_append, List.append_assoc]⟩

/-- Branch of line 15: folder, collapsed, viewable. -/
theorem TNF_folder_open (value : String) (d : Node) (ht : d.type = some "folder")
    (hc : d.collapsed = true) (hv : d.can_view ≠ some "false") :
    TaskNameFormatter value d =
      spacerStr d.indent ++ " <span class=\x27toggle expand nav-filter-item\x27 data-hgrid-nav="
        ++ toString d.uid
        ++ "></span></span><span class=\x27folder folder-open\x27></span>&nbsp;"
        ++ escapeJS value ++ "</a>" := by
  simp [TaskNameFormatter, ht, hc, hv]

/-- Branch of line 18: folder, collapsed, not viewable. -/
theorem TNF_folder_redacted_collapsed (value : String) (d : Node)
    (ht : d.type = some "folder") (hc : d.collapsed = true)
    (hv : d.can_view = some "false") :
    TaskNameFormatter value d =
      spacerStr d.indent ++ " <span class=\x27toggle nav-filter-item\x27 data-hgrid-nav="
        ++ toString d.uid
        ++ "></span></span><span class=\x27folder folder-delete\x27></span>&nbsp;"
        ++ "Private Component" ++ "</a>" := by
  simp [TaskNameFormatter, ht, hc, hv]

/-- Branch of line 22: folder, expanded, viewable. -/
theorem TNF_folder_close (value : String) (d : Node) (ht : d.type = some "folder")
    (hc : d.collapsed = false) (hv : d.can_view ≠ some "false") :
    TaskNameFormatter value d =
      spacerStr d.indent ++ " <span class=\x27toggle collapse nav-filter-item\x27 data-hgrid-nav="
        ++ toString d.uid
        ++ "></span><span class=\x27folder folder-close\x27></span>&nbsp;"
        ++ escapeJS value ++ "</a>" := by
  simp [TaskNameFormatter, ht, hc, hv]

/-- Branch of line 25: folder, expanded, not viewable. -/
theorem TNF_folder_redacted_expanded (value : String) (d : Node)
    (ht : d.type = some "folder") (hc : d.collapsed = false)
    (hv : d.can_view = some "false") :
    TaskNameFormatter value d =
      spacerStr d.indent ++ " <span class=\x27toggle nav-filter-item\x27 data-hgrid-nav="
        ++ toString d.uid
        ++ "></span><span class=\x27folder folder-delete\x27></span>&nbsp;"
        ++ "Private Component" ++ "</a>" := by
  simp [TaskNameFormatter, ht, hc, hv]

/-- Branch of lines 29-38, falsy `url`: file row with a plain label. -/
theorem TNF_file_nourl (value : String) (d : Node) (ht : d.type ≠ some "folder")
    (hu : urlTruthy d.url = false) :
    TaskNameFormatter value d =
      spacerStr d.indent
        ++ " <span class=\x27toggle\x27></span><span class=\x27file\x27 style=\x27background: url("
        ++ fileImageUrl d.ext ++ ") no-repeat left top;\x27></span>&nbsp;"
        ++ escapeJS value := by
  simp [TaskNameFormatter, ht, hu]

/-- Branch of lines 29-38, truthy `url`: file row with a linked label. -/
theorem TNF_file_url (value : String) (d : Node) (ht : d.type ≠ some "folder")
    (hu : urlTruthy d.url = true) :
    TaskNameFormatter value d =
      spacerStr d.indent
        ++ " <span class=\x27toggle\x27></span><span class=\x27file\x27 style=\x27background: url("
        ++ fileImageUrl d.ext ++ ") no-repeat left top;\x27></span>&nbsp;"
        ++ ("<a href=" ++ d.url.getD "" ++ ">" ++ escapeJS value ++ "</a>") := by
  simp [TaskNameFormatter, ht, hu]

/-- Every branch of the formatter emits the indentation spacer first. -/
theorem TNF_starts (value : String) (d : Node) :
    ∃ rest, TaskNameFormatter value d = spacerStr d.indent ++ rest := by
  by_cases ht : d.type = some "folder"
  · cases hc : d.collapsed
    · by_cases hv : d.can_view = some "false"
      · rw [TNF_folder_redacted_expanded value d ht hc hv]
        simp only [sapp_assoc]
        exact ⟨_, rfl⟩
      · rw [TNF_folder_close value d ht hc hv]
        simp only [sapp_assoc]
        exact ⟨_, rfl⟩
    · by_cases hv : d.can_view = some "false"
      · rw [TNF_folder_redacted_collapsed value d ht hc hv]
        simp only [sapp_assoc]
        exact ⟨_, rfl⟩
      · rw [TNF_folder_open value d ht hc hv]
        simp only [sapp_assoc]
        exact ⟨_, rfl⟩
  · cases hu : urlTruthy d.url
    · rw [TNF_file_nourl value d ht hu]
      simp only [sapp_assoc]
      exact ⟨_, rfl⟩
    · rw [TNF_file_url value d ht hu]
      simp only [sapp_assoc]
      exact ⟨_, rfl⟩

/-- C7: for every node (any `indent : ℕ`, i.e. `indent ≥ 0`), the output
begins with the spacer markup whose width is exactly `18 * indent`
pixels. -/
theorem C7_spacer_width (value : String) (d : Node) :
    ∃ rest, TaskNameFormatter value d =
      "<span style=\x27display:inline-block;height:1px;width:"
        ++ toString (18 * d.indent) ++ "px" ++ rest := by
  obtain ⟨rest, h⟩ := TNF_starts value d
  refine ⟨"\x27></span>" ++ rest, ?_⟩
  rw [h, spacerStr,
    show ("px\x27></span>" : String) = "px" ++ "\x27></span>" from rfl]
  simp only [sapp_assoc]

/-- C1 counterexample: the claim "the output never contains the node's
original name substring" fails when the name happens to coincide with the
fixed markup text: a redacted folder named "folder" still yields output
containing "folder" (from the `folder folder-delete` class). -/
theorem C1_counterexample :
    strContains
      (TaskNameFormatter "folder" ⟨some "folder", 0, false, some "false", 1, none, none⟩)
      "folder" := by decide

/-- C1 (amended): for every folder node whose `can_view` is the string
"false", the output is literally independent of the name (so the name is
never interpolated; it can occur in the output only by coinciding with the
fixed markup), and the literal label "Private Component" appears in its
place, in both collapsed states. -/
theorem C1_redaction (v₁ v₂ : String) (d : Node) (ht : d.type = some "folder")
    (hv : d.can_view = some "false") :
    TaskNameFormatter v₁ d = TaskNameFormatter v₂ d
    ∧ strContains (TaskNameFormatter v₁ d) "Private Component" := by
  cases hc : d.collapsed
  · rw [TNF_folder_redacted_expanded v₁ d ht hc hv,
      TNF_folder_redacted_expanded v₂ d ht hc hv]
    exact ⟨rfl, strContains_appL _ _ _ (strContains_appR _ _ _ (strContains_self _))⟩
  · rw [TNF_folder_redacted_collapsed v₁ d ht hc hv,
      TNF_folder_redacted_collapsed v₂ d ht hc hv]
    exact ⟨rfl, strContains_appL _ _ _ (strContains_appR _ _ _ (strContains_self _))⟩

theorem C1_redaction_witness :
    TaskNameFormatter "secret" ⟨some "folder", 0, true, some "false", 3, none, none⟩ =
      TaskNameFormatter "other" ⟨some "folder", 0, true, some "false", 3, none, none⟩
    ∧ strContains
        (TaskNameFormatter "secret" ⟨some "folder", 0, true, some "false", 3, none, none⟩)
        "Private Component" :=
  C1_redaction "secret" "other" ⟨some "folder", 0, true, some "false", 3, none, none⟩ rfl rfl

/-- C2: on the node `{type:"folder", collapsed:true, can_view:"true", uid:7,
name:"Docs", indent:1}` the formatter emits an 18px spacer, an expand
toggle whose data-hgrid-nav attribute is 7, the open-folder icon class, and
the literal text "Docs". -/
theorem C2_end_to_end :
    strContains (TaskNameFormatter "Docs" ⟨some "folder", 1, true, some "true", 7, none, none⟩)
      "width:18px"
    ∧ strContains (TaskNameFormatter "Docs" ⟨some "folder", 1, true, some "true", 7, none, none⟩)
      "<span class=\x27toggle expand nav-filter-item\x27 data-hgrid-nav=7>"
    ∧ strContains (TaskNameFormatter "Docs" ⟨some "folder", 1, true, some "true", 7, none, none⟩)
      "folder folder-open"
    ∧ strContains (TaskNameFormatter "Docs" ⟨some "folder", 1, true, some "true", 7, none, none⟩)
      "Docs" := by decide

/-- C10: every folder row, viewable or redacted, collapsed or not, carries
the node's uid verbatim in a `data-hgrid-nav` attribute. -/
theorem C10_uid_survives_redaction (value : String) (d : Node)
    (ht : d.type = some "folder") :
    strContains (TaskNameFormatter value d) ("data-hgrid-nav=" ++ toString d.uid) := by
  cases hc : d.collapsed <;> by_cases hv : d.can_view = some "false"
  · refine strContains_sandwich _
      (spacerStr d.indent ++ " <span class=\x27toggle nav-filter-item\x27 ") _
      ("></span><span class=\x27folder folder-delete\x27></span>&nbsp;"
        ++ "Private Component" ++ "</a>") ?_
    rw [TNF_folder_redacted_expanded value d ht hc hv,
      show (" <span class=\x27toggle nav-filter-item\x27 data-hgrid-nav=" : String)
        = " <span class=\x27toggle nav-filter-item\x27 " ++ "data-hgrid-nav=" from rfl]
    simp only [sapp_assoc]
  · refine strContains_sandwich _
      (spacerStr d.indent ++ " <span class=\x27toggle collapse nav-filter-item\x27 ") _
      ("></span><span class=\x27folder folder-close\x27></span>&nbsp;"
        ++ escapeJS value ++ "</a>") ?_
    rw [TNF_folder_close value d ht hc hv,
      show (" <span class=\x27toggle collapse nav-filter-item\x27 data-hgrid-nav=" : String)
        = " <span class=\x27toggle collapse nav-filter-item\x27 " ++ "data-hgrid-nav=" from rfl]
    simp only [sapp_assoc]
  · refine strContains_sandwich _
      (spacerStr d.indent ++ " <span class=\x27toggle nav-filter-item\x27 ") _
      ("></span></span><span class=\x27folder folder-delete\x27></span>&nbsp;"
        ++ "Private Component" ++ "</a>") ?_
    rw [TNF_folder_redacted_collapsed value d ht hc hv,
      show (" <span class=\x27toggle nav-filter-item\x27 data-hgrid-nav=" : String)
        = " <span class=\x27toggle nav-filter-item\x27 " ++ "data-hgrid-nav=" from rfl]
    simp only [sapp_assoc]
  · refine strContains_sandwich _
      (spacerStr d.indent ++ " <span class=\x27toggle expand nav-filter-item\x27 ") _
      ("></span></span><span class=\x27folder folder-open\x27></span>&nbsp;"
        ++ escapeJS value ++ "</a>") ?_
    rw [TNF_folder_open value d ht hc hv,
      show (" <span class=\x27toggle expand nav-filter-item\x27 data-hgrid-nav=" : String)
        = " <span class=\x27toggle expand nav-filter-item\x27 " ++ "data-hgrid-nav=" from rfl]
    simp only [sapp_assoc]

theorem C10_uid_survives_redaction_witness :
    strContains
      (TaskNameFormatter "hidden" ⟨some "folder", 2, true, some "false", 42, none, none⟩)
      ("data-hgrid-nav=" ++ toString 42) :=
  C10_uid_survives_redaction "hidden" ⟨some "folder", 2, true, some "false", 42, none, none⟩ rfl

/-- C4: the display text is escaped by exactly the three substitutions
`&` → `&amp;`, `<` → `&lt;`, `>` → `&gt;`, ampersand first; consequently the
escape map acts on each input character independently (`escChar`), a
literal `<` becomes `&lt;` and never the double-encoded `&amp;lt;`, and
likewise for `>`. -/
theorem C4_escape_order :
    (∀ s : String, (escapeJS s).data = s.data.flatMap escChar)
    ∧ escapeJS "&" = "&amp;" ∧ escapeJS "<" = "&lt;" ∧ escapeJS ">" = "&gt;"
    ∧ escapeJS "<" ≠ "&amp;lt;" ∧ escapeJS ">" ≠ "&amp;gt;" :=
  ⟨escapeJS_data, by decide, by decide, by decide, by decide, by decide⟩

/-- C8 counterexample: the output for a collapsed viewable folder contains
no opening anchor tag at all (no occurrence of the characters `<a`), so
the escaped label is not "wrapped in an anchor element with both an
opening and a closing tag"; the code emits only a stray closing `</a>`. -/
theorem C8_counterexample :
    ¬ strContains
      (TaskNameFormatter "Docs" ⟨some "folder", 1, true, some "true", 7, none, none⟩)
      "<a" := by decide

/-- C8 (amended): for every collapsed viewable folder node the output
contains the expand toggle control tagged with the node's uid and the
open-folder icon markup, and ends with the escaped label followed by a
stray closing anchor tag (no opening anchor tag is emitted). -/
theorem C8_collapsed_viewable (value : String) (d : Node)
    (ht : d.type = some "folder") (hc : d.collapsed = true)
    (hv : d.can_view ≠ some "false") :
    strContains (TaskNameFormatter value d)
      ("<span class=\x27toggle expand nav-filter-item\x27 data-hgrid-nav="
        ++ toString d.uid ++ ">")
    ∧ strContains (TaskNameFormatter value d)
      "<span class=\x27folder folder-open\x27>"
    ∧ ∃ pre, TaskNameFormatter value d = pre ++ "&nbsp;" ++ escapeJS value ++ "</a>" := by
  refine ⟨?_, ?_, ?_⟩
  · refine strContains_sandwich _ (spacerStr d.indent ++ " ") _
      ("</span></span><span class=\x27folder folder-open\x27></span>&nbsp;"
        ++ escapeJS value ++ "</a>") ?_
    rw [TNF_folder_open value d ht hc hv,
      show (" <span class=\x27toggle expand nav-filter-item\x27 data-hgrid-nav=" : String)
        = " " ++ "<span class=\x27toggle expand nav-filter-item\x27 data-hgrid-nav=" from rfl,
      show ("></span></span><span class=\x27folder folder-open\x27></span>&nbsp;" : String)
        = ">" ++ "</span></span><span class=\x27folder folder-open\x27></span>&nbsp;" from rfl]
    simp only [sapp_assoc]
  · refine strContains_sandwich _
      (spacerStr d.indent ++ " <span class=\x27toggle expand nav-filter-item\x27 data-hgrid-nav="
        ++ toString d.uid ++ "></span></span>") _
      ("</span>&nbsp;" ++ escapeJS value ++ "</a>") ?_
    rw [TNF_folder_open value d ht hc hv,
      show ("></span></span><span class=\x27folder folder-open\x27></span>&nbsp;" : String)
        = "></span></span>" ++ "<span class=\x27folder folder-open\x27>" ++ "</span>&nbsp;" from rfl]
    simp only [sapp_assoc]
  · refine ⟨spacerStr d.indent
      ++ " <span class=\x27toggle expand nav-filter-item\x27 data-hgrid-nav="
      ++ toString d.uid ++ "></span></span><span class=\x27folder folder-open\x27></span>", ?_⟩
    rw [TNF_folder_open value d ht hc hv,
      show ("></span></span><span class=\x27folder folder-open\x27></span>&nbsp;" : String)
        = "></span></span><span class=\x27folder folder-open\x27></span>" ++ "&nbsp;" from rfl]
    simp only [sapp_assoc]

theorem C8_collapsed_viewable_witness :
    strContains (TaskNameFormatter "Docs" ⟨some "folder", 0, true, none, 9, none, none⟩)
      ("<span class=\x27toggle expand nav-filter-item\x27 data-hgrid-nav="
        ++ toString 9 ++ ">")
    ∧ strContains (TaskNameFormatter "Docs" ⟨some "folder", 0, true, none, 9, none, none⟩)
      "<span class=\x27folder folder-open\x27>"
    ∧ ∃ pre, TaskNameFormatter "Docs" ⟨some "folder", 0, true, none, 9, none, none⟩
        = pre ++ "&nbsp;" ++ escapeJS "Docs" ++ "</a>" :=
  C8_collapsed_viewable "Docs" ⟨some "folder", 0, true, none, 9, none, none⟩ rfl rfl (by decide)

theorem extMember_some (e : String) : extMember (some e) = true ↔ e ∈ extensions :=
  List.elem_iff

/-- Every file row displays its icon via `url(` around `fileImageUrl`. -/
theorem TNF_file_icon (value : String) (d : Node) (ht : ¬ d.type = some "folder") :
    strContains (TaskNameFormatter value d) ("url(" ++ fileImageUrl d.ext ++ ")") := by
  cases hu : urlTruthy d.url
  · refine strContains_sandwich _
      (spacerStr d.indent
        ++ " <span class=\x27toggle\x27></span><span class=\x27file\x27 style=\x27background: ") _
      (" no-repeat left top;\x27></span>&nbsp;" ++ escapeJS value) ?_
    rw [TNF_file_nourl value d ht hu,
      show (" <span class=\x27toggle\x27></span><span class=\x27file\x27 style=\x27background: url(" : String)
        = " <span class=\x27toggle\x27></span><span class=\x27file\x27 style=\x27background: " ++ "url(" from rfl,
      show (") no-repeat left top;\x27></span>&nbsp;" : String)
        = ")" ++ " no-repeat left top;\x27></span>&nbsp;" from rfl]
    simp only [sapp_assoc]
  · refine strContains_sandwich _
      (spacerStr d.indent
        ++ " <span class=\x27toggle\x27></span><span class=\x27file\x27 style=\x27background: ") _
      (" no-repeat left top;\x27></span>&nbsp;"
        ++ ("<a href=" ++ d.url.getD "" ++ ">" ++ escapeJS value ++ "</a>")) ?_
    rw [TNF_file_url value d ht hu,
      show (" <span class=\x27toggle\x27></span><span class=\x27file\x27 style=\x27background: url(" : String)
        = " <span class=\x27toggle\x27></span><span class=\x27file\x27 style=\x27background: " ++ "url(" from rfl,
      show (") no-repeat left top;\x27></span>&nbsp;" : String)
        = ")" ++ " no-repeat left top;\x27></span>&nbsp;" from rfl]
    simp only [sapp_assoc]

/-- A known extension selects the extension-parameterized icon asset. -/
theorem TNF_file_icon_member (value : String) (d : Node) (e : String)
    (ht : ¬ d.type = some "folder") (he : d.ext = some e) (hm : e ∈ extensions) :
    strContains (TaskNameFormatter value d)
      ("url(/static/img/hgrid/fatcowicons/file_extension_" ++ e ++ ".png)") := by
  have hmb : extMember (some e) = true := (extMember_some e).mpr hm
  have himg : fileImageUrl d.ext
      = "/static/img/hgrid/fatcowicons/file_extension_" ++ e ++ ".png" := by
    rw [he]; simp [fileImageUrl, hmb, extRepr]
  have h := TNF_file_icon value d ht
  rw [himg] at h
  rw [show ("url(/static/img/hgrid/fatcowicons/file_extension_" : String)
      = "url(" ++ "/static/img/hgrid/fatcowicons/file_extension_" from rfl,
    show (".png)" : String) = ".png" ++ ")" from rfl]
  simp only [sapp_assoc] at h ⊢
  exact h

/-- An unknown (or absent) extension selects the one fixed generic icon. -/
theorem TNF_file_icon_generic (value : String) (d : Node)
    (ht : ¬ d.type = some "folder") (hm : extMember d.ext = false) :
    strContains (TaskNameFormatter value d) "url(/static/img/hgrid/file.png)" := by
  have himg : fileImageUrl d.ext = "/static/img/hgrid/file.png" := by
    simp [fileImageUrl, hm]
  have h := TNF_file_icon value d ht
  rw [himg] at h
  rwa [show ("url(" : String) ++ "/static/img/hgrid/file.png" ++ ")"
      = "url(/static/img/hgrid/file.png)" from rfl] at h

/-- C5: for a file node, icon selection has exactly the two outcomes decided
by exact membership of `ext` in the static extension list: a member `e`
puts `file_extension_e.png` in the icon path, a non-member always gets the
generic `file.png`. -/
theorem C5_icon_two_outcomes (value : String) (d : Node) (e : String)
    (ht : ¬ d.type = some "folder") (he : d.ext = some e) :
    (e ∈ extensions → strContains (TaskNameFormatter value d)
      ("url(/static/img/hgrid/fatcowicons/file_extension_" ++ e ++ ".png)"))
    ∧ (e ∉ extensions → strContains (TaskNameFormatter value d)
      "url(/static/img/hgrid/file.png)") := by
  refine ⟨fun hm => TNF_file_icon_member value d e ht he hm, fun hnm => ?_⟩
  refine TNF_file_icon_generic value d ht ?_
  rw [he]
  exact Bool.eq_false_iff.mpr fun hc => hnm ((extMember_some e).mp hc)

theorem C5_icon_two_outcomes_witness :
    strContains (TaskNameFormatter "a.pdf" ⟨none, 0, false, none, 0, none, some "pdf"⟩)
      ("url(/static/img/hgrid/fatcowicons/file_extension_" ++ "pdf" ++ ".png)")
    ∧ strContains (TaskNameFormatter "a.xyz" ⟨none, 0, false, none, 0, none, some "xyz"⟩)
      "url(/static/img/hgrid/file.png)" :=
  ⟨(C5_icon_two_outcomes "a.pdf" ⟨none, 0, false, none, 0, none, some "pdf"⟩ "pdf"
      (by decide) rfl).1 (by decide),
   (C5_icon_two_outcomes "a.xyz" ⟨none, 0, false, none, 0, none, some "xyz"⟩ "xyz"
      (by decide) rfl).2 (by decide)⟩

/-- C9: the icon URL a file row actually displays is either the fixed
generic `file.png` path or embeds an extension that is a member of the
static list; an `ext` outside the list is never interpolated — the output
is literally independent of such an `ext`. -/
theorem C9_no_unknown_ext_interpolation (value : String) (d : Node)
    (ht : ¬ d.type = some "folder") :
    (extMember d.ext = false →
      TaskNameFormatter value d = TaskNameFormatter value { d with ext := none }
      ∧ strContains (TaskNameFormatter value d) "url(/static/img/hgrid/file.png)")
    ∧ (extMember d.ext = true →
      ∃ e, d.ext = some e ∧ e ∈ extensions
        ∧ strContains (TaskNameFormatter value d)
            ("url(/static/img/hgrid/fatcowicons/file_extension_" ++ e ++ ".png)")) := by
  constructor
  · intro hm
    have himg : fileImageUrl d.ext = "/static/img/hgrid/file.png" := by
      simp [fileImageUrl, hm]
    have himg2 : fileImageUrl ({ d with ext := none } : Node).ext
        = "/static/img/hgrid/file.png" := by
      simp [fileImageUrl, extMember]
    refine ⟨?_, TNF_file_icon_generic value d ht hm⟩
    cases hu : urlTruthy d.url
    · rw [TNF_file_nourl value d ht hu,
        TNF_file_nourl value { d with ext := none } ht hu, himg, himg2]
    · rw [TNF_file_url value d ht hu,
        TNF_file_url value { d with ext := none } ht hu, himg, himg2]
  · intro hm
    cases hext : d.ext with
    | none => rw [hext] at hm; exact absurd hm (by simp [extMember])
    | some e =>
      have hmem : e ∈ extensions := (extMember_some e).mp (hext ▸ hm)
      exact ⟨e, rfl, hmem, TNF_file_icon_member value d e ht hext hmem⟩

theorem C9_no_unknown_ext_interpolation_witness :
    (TaskNameFormatter "x" ⟨none, 0, false, none, 0, none, some "evil stuff"⟩
      = TaskNameFormatter "x" ⟨none, 0, false, none, 0, none, none⟩
     ∧ strContains (TaskNameFormatter "x" ⟨none, 0, false, none, 0, none, some "evil stuff"⟩)
        "url(/static/img/hgrid/file.png)")
    ∧ ∃ e, (some "zip" : Option String) = some e ∧ e ∈ extensions
        ∧ strContains (TaskNameFormatter "x" ⟨none, 0, false, none, 0, none, some "zip"⟩)
            ("url(/static/img/hgrid/fatcowicons/file_extension_" ++ e ++ ".png)") :=
  ⟨(C9_no_unknown_ext_interpolation "x" ⟨none, 0, false, none, 0, none, some "evil stuff"⟩
      (by decide)).1 (by decide),
   (C9_no_unknown_ext_interpolation "x" ⟨none, 0, false, none, 0, none, some "zip"⟩
      (by decide)).2 (by decide)⟩

/-- A file row without a truthy url ends in the escaped label preceded by
`&nbsp;`: the label is rendered as trailing plain text. -/
theorem TNF_plain_label (value : String) (d : Node) (ht : ¬ d.type = some "folder")
    (hu : urlTruthy d.url = false) :
    ∃ pre, TaskNameFormatter value d = pre ++ "&nbsp;" ++ escapeJS value := by
  refine ⟨spacerStr d.indent
    ++ " <span class=\x27toggle\x27></span><span class=\x27file\x27 style=\x27background: url("
    ++ fileImageUrl d.ext ++ ") no-repeat left top;\x27></span>", ?_⟩
  rw [TNF_file_nourl value d ht hu,
    show (") no-repeat left top;\x27></span>&nbsp;" : String)
      = ") no-repeat left top;\x27></span>" ++ "&nbsp;" from rfl]
  simp only [sapp_assoc]

/-- A file row without a truthy url emits no closing anchor at its end: its
last character is the last character of the escaped label (never `>`, since
escaping removes all angle brackets) or the `;` of `&nbsp;`. -/
theorem TNF_no_trailing_anchor (value : String) (d : Node)
    (ht : ¬ d.type = some "folder") (hu : urlTruthy d.url = false) :
    ∀ p : String, TaskNameFormatter value d ≠ p ++ "</a>" := by
  intro p hcontra
  have h1 : (TaskNameFormatter value d).data.getLast? = some '>' := by
    rw [hcontra, String.data_append,
      List.getLast?_append_of_ne_nil _ (by decide)]
    rfl
  rw [TNF_file_nourl value d ht hu, String.data_append] at h1
  cases hesc : (escapeJS value).data with
  | nil =>
    rw [hesc, List.append_nil, String.data_append,
      List.getLast?_append_of_ne_nil _ (by decide)] at h1
    exact absurd h1 (by decide)
  | cons c rest =>
    rw [hesc, List.getLast?_append_of_ne_nil _ (List.cons_ne_nil c rest)] at h1
    have hm : '>' ∈ (escapeJS value).data := by
      rw [hesc]
      exact List.mem_of_mem_getLast? h1
    exact (escapeJS_no_angle value '>' hm).2 rfl

/-- C6: a file node with no url gets its escaped label as trailing plain
text with no closing anchor; a file node with a non-empty url `u` gets the
escaped label wrapped in `<a href=u>...</a>`. -/
theorem C6_url_link (value : String) (d : Node) (ht : ¬ d.type = some "folder") :
    (d.url = none →
      (∃ pre, TaskNameFormatter value d = pre ++ "&nbsp;" ++ escapeJS value)
      ∧ ∀ p : String, TaskNameFormatter value d ≠ p ++ "</a>")
    ∧ (∀ u, d.url = some u → u ≠ "" →
      ∃ pre, TaskNameFormatter value d
        = pre ++ "&nbsp;" ++ ("<a href=" ++ u ++ ">" ++ escapeJS value ++ "</a>")) := by
  constructor
  · intro hun
    have hu : urlTruthy d.url = false := by rw [hun]; rfl
    exact ⟨TNF_plain_label value d ht hu, TNF_no_trailing_anchor value d ht hu⟩
  · intro u hus hne
    have hu : urlTruthy d.url = true := by
      rw [hus]; simp [urlTruthy, hne]
    refine ⟨spacerStr d.indent
      ++ " <span class=\x27toggle\x27></span><span class=\x27file\x27 style=\x27background: url("
      ++ fileImageUrl d.ext ++ ") no-repeat left top;\x27></span>", ?_⟩
    rw [TNF_file_url value d ht hu, hus,
      show (") no-repeat left top;\x27></span>&nbsp;" : String)
        = ") no-repeat left top;\x27></span>" ++ "&nbsp;" from rfl]
    simp only [sapp_assoc, Option.getD_some]

theorem C6_url_link_witness :
    ((∃ pre, TaskNameFormatter "hi" ⟨none, 0, false, none, 0, none, none⟩
        = pre ++ "&nbsp;" ++ escapeJS "hi")
      ∧ ∀ p : String, TaskNameFormatter "hi" ⟨none, 0, false, none, 0, none, none⟩ ≠ p ++ "</a>")
    ∧ ∃ pre, TaskNameFormatter "hi" ⟨none, 0, false, none, 0, some "http://x", none⟩
        = pre ++ "&nbsp;" ++ ("<a href=" ++ "http://x" ++ ">" ++ escapeJS "hi" ++ "</a>") :=
  ⟨(C6_url_link "hi" ⟨none, 0, false, none, 0, none, none⟩ (by decide)).1 rfl,
   (C6_url_link "hi" ⟨none, 0, false, none, 0, some "http://x", none⟩ (by decide)).2
     "http://x" rfl (by decide)⟩

/-- C3: the formatter is a total function into markup strings — every
output begins with a `<span` tag — and a malformed node (missing `type`,
missing `ext`, no `url`) is handled by the default branch: generic file
icon and a trailing plain-text label, not a failure. -/
theorem C3_total_fallback :
    (∀ (value : String) (d : Node),
      ∃ rest, TaskNameFormatter value d = "<span" ++ rest)
    ∧ (∀ (value : String) (d : Node), d.type = none → d.ext = none → d.url = none →
      strContains (TaskNameFormatter value d) "url(/static/img/hgrid/file.png)"
      ∧ ∃ pre, TaskNameFormatter value d = pre ++ "&nbsp;" ++ escapeJS value) := by
  constructor
  · intro value d
    obtain ⟨rest, h⟩ := TNF_starts value d
    refine ⟨" style=\x27display:inline-block;height:1px;width:"
      ++ (toString (18 * d.indent) ++ ("px\x27></span>" ++ rest)), ?_⟩
    rw [h, spacerStr,
      show ("<span style=\x27display:inline-block;height:1px;width:" : String)
        = "<span" ++ " style=\x27display:inline-block;height:1px;width:" from rfl]
    simp only [sapp_assoc]
  · intro value d htn hen hun
    have ht : ¬ d.type = some "folder" := by simp [htn]
    have hm : extMember d.ext = false := by rw [hen]; rfl
    have hu : urlTruthy d.url = false := by rw [hun]; rfl
    exact ⟨TNF_file_icon_generic value d ht hm, TNF_plain_label value d ht hu⟩

theorem C3_total_fallback_witness :
    (∃ rest, TaskNameFormatter "a&b" ⟨some "folder", 1, true, none, 5, none, none⟩
      = "<span" ++ rest)
    ∧ strContains (TaskNameFormatter "a&b" ⟨none, 0, false, none, 0, none, none⟩)
        "url(/static/img/hgrid/file.png)"
    ∧ ∃ pre, TaskNameFormatter "a&b" ⟨none, 0, false, none, 0, none, none⟩
        = pre ++ "&nbsp;" ++ escapeJS "a&b" :=
  ⟨C3_total_fallback.1 "a&b" ⟨some "folder", 1, true, none, 5, none, none⟩,
   C3_total_fallback.2 "a&b" ⟨none, 0, false, none, 0, none, none⟩ rfl rfl rfl⟩

end HgridGithub
